import Mathlib

/-!
Verification development for the bubbleemotion-search repository.

The retrieval pipeline (`flask_app.py`, `search_engine.py`,
`simple_ddg_scraper.py`, `ddg_scraper.py`, `index.py`) and the emotion
scoring interface (`emotion_classifier.py`) are shallowly embedded below.
External libraries (playwright, BeautifulSoup, requests, re, torch) are
modelled at their call boundary: the values they hand back to the
repository's code (DOM containers, link attributes, HTTP responses,
regex match data) are inputs of the embedded functions, while every line
of the repository's own logic (filtering, decoding, caching, scoring,
exception handling) is translated directly.  Python strings are modelled
as Lean strings (percent-decoding is modelled per character, which
agrees with CPython on ASCII data); Python floats are modelled as exact
rationals; a raised Python exception is an explicit `PyExc` value.
-/

/-- A Python exception value, carrying its rendered message. -/
inductive PyExc where
  | exc : String → PyExc
deriving DecidableEq, Repr

/-! ### Character-list string utilities (Python `str` operations) -/

/-- `seqLead pat l` is true when `pat` occurs at the very start of `l`. -/
def seqLead : List Char → List Char → Bool
  | [], _ => true
  | _ :: _, [] => false
  | p :: ps, h :: hs => p == h && seqLead ps hs

/-- `seqInside pat l` : does `pat` occur contiguously anywhere in `l`?
Models Python's `pat in s` for nonempty `pat`. -/
def seqInside (pat : List Char) : List Char → Bool
  | [] => seqLead pat []
  | h :: hs => seqLead pat (h :: hs) || seqInside pat hs

/-- Python `needle in hay` (substring containment). -/
def strContains (hay needle : String) : Bool :=
  seqInside needle.data hay.data

/-- Python `s.startswith(pat)`. -/
def strLeads (s pat : String) : Bool :=
  seqLead pat.data s.data

/-- Python `s.lower()` (ASCII case folding, as `Char.toLower`). -/
def pyLower (s : String) : String :=
  ⟨s.data.map Char.toLower⟩

/-- Python `str.strip()` on the default whitespace set. -/
def pyStrip (s : String) : String :=
  ⟨(((s.data.dropWhile Char.isWhitespace).reverse.dropWhile
      Char.isWhitespace).reverse)⟩

/-- Python `str.split()` (split on whitespace runs, dropping empties). -/
def pySplitWs (l : List Char) : List (List Char) :=
  match l with
  | [] => []
  | c :: rest =>
    if c.isWhitespace then pySplitWs rest
    else
      match pySplitWs rest with
      | [] => [[c]]
      | w :: ws =>
        match rest with
        | [] => [[c]]
        | r :: _ => if r.isWhitespace then [c] :: w :: ws else (c :: w) :: ws

/-- Python `' '.join(words)`. -/
def joinSpace (ws : List (List Char)) : List Char :=
  match ws with
  | [] => []
  | [w] => w
  | w :: rest => w ++ ' ' :: joinSpace rest

/-- Python `' '.join(s.split())` — collapse internal whitespace. -/
def collapseWs (s : String) : String :=
  ⟨joinSpace (pySplitWs s.data)⟩

/-- Python `s.split(sep)[0]` for a nonempty separator: the text before the
first occurrence of `sep` (the whole string when `sep` is absent). -/
def beforeSeq (sep : List Char) : List Char → List Char
  | [] => []
  | h :: hs => if seqLead sep (h :: hs) then [] else h :: beforeSeq sep hs

/-! ### Percent decoding (`urllib.parse`) -/

/-- Value of a hexadecimal digit, if any. -/
def hexDigitVal (c : Char) : Option Nat :=
  if '0' ≤ c ∧ c ≤ '9' then some (c.toNat - '0'.toNat)
  else if 'a' ≤ c ∧ c ≤ 'f' then some (c.toNat - 'a'.toNat + 10)
  else if 'A' ≤ c ∧ c ≤ 'F' then some (c.toNat - 'A'.toNat + 10)
  else none

/-- `urllib.parse.unquote`, per character: a `%` followed by two hex digits
decodes to the character with that code; an invalid escape is kept
verbatim.  (Agrees with CPython for ASCII escape data.) -/
def percentDecodeList : List Char → List Char
  | [] => []
  | '%' :: a :: b :: rest =>
    match hexDigitVal a, hexDigitVal b with
    | some va, some vb => Char.ofNat (16 * va + vb) :: percentDecodeList rest
    | _, _ => '%' :: percentDecodeList (a :: b :: rest)
  | c :: rest => c :: percentDecodeList rest

/-- `urllib.parse.unquote` on strings. -/
def unquoteStr (s : String) : String := ⟨percentDecodeList s.data⟩

/-- `urllib.parse.unquote_plus`: `+` becomes a space, then percent-decode. -/
def unquotePlusStr (s : String) : String :=
  ⟨percentDecodeList (s.data.map (fun c => if c == '+' then ' ' else c))⟩

/-- Characters strictly before the first occurrence of `c` (whole list when
`c` is absent). -/
def takeUntilChar (c : Char) : List Char → List Char
  | [] => []
  | h :: hs => if h == c then [] else h :: takeUntilChar c hs

/-- Characters strictly after the first occurrence of `c`, when present. -/
def dropPastChar (c : Char) : List Char → Option (List Char)
  | [] => none
  | h :: hs => if h == c then some hs else dropPastChar c hs

/-- The `query` component `urllib.parse.urlparse` extracts: the text after
the first `?` of the fragment-stripped URL. -/
def urlQuery (s : String) : String :=
  match dropPastChar '?' (takeUntilChar '#' s.data) with
  | some q => ⟨q⟩
  | none => ""

/-- Split a query-string component at its first `=`
(Python `s.split('=', 1)`). -/
def splitFirstEq (l : List Char) : Option (List Char × List Char) :=
  match dropPastChar '=' l with
  | some v => some (takeUntilChar '=' l, v)
  | none => none

/-- Split a list on every occurrence of `c` (Python `s.split(c)`). -/
def splitOnChar (c : Char) : List Char → List (List Char)
  | [] => [[]]
  | h :: hs =>
    if h == c then [] :: splitOnChar c hs
    else
      match splitOnChar c hs with
      | [] => [[h]]
      | w :: ws => (h :: w) :: ws

/-- `urllib.parse.parse_qs(qs).get(name, [None])[0]`: first value listed
under `name`.  Components are split on `&`, split at their first `=`
(components without `=` or with an empty raw value are dropped, as with
`keep_blank_values=False`), and names and values are `unquote_plus`d. -/
def parseQsFirst (qs : String) (name : String) : Option String :=
  ((splitOnChar '&' qs.data).filterMap (fun comp =>
      match splitFirstEq comp with
      | some (n, v) =>
        if v.isEmpty then none
        else some (unquotePlusStr ⟨n⟩, unquotePlusStr ⟨v⟩)
      | none => none)).lookup name

/-- Claim-side notion of a recognized URI scheme: a nonempty run of ASCII
letters terminated by `:` at the very start of the string. -/
def hasUriScheme (s : String) : Bool :=
  match s.data with
  | [] => false
  | c :: _ =>
    c.isAlpha &&
      (s.data.dropWhile (fun d => d.isAlpha || d.isDigit || d == '+'
        || d == '-' || d == '.')).headD ' ' == ':'

/-! ## `flask_app.py` — browser-based extractor, cache, `/search` route -/

namespace FlaskApp

/-- A result item as produced by `fetch_google_results`
(`{"title": ..., "url": ..., "snippet": ...}`; the snippet may be `None`). -/
structure FItem where
  title : String
  url : String
  snippet : Option String
deriving DecidableEq, Repr

/-- One DuckDuckGo result container as playwright exposes it to
`fetch_google_results`: the raw `text_content()` of the title locator, the
raw `href` attribute of the link locator, and the raw snippet text.  Each
field is `none` when the locator matched nothing (`count() == 0`, or
`get_attribute` returned `None`). -/
structure FcContainer where
  titleText : Option String
  linkHref : Option String
  snippetText : Option String
deriving DecidableEq, Repr

/-- The ad-marker phrase stripped from titles (flask_app.py line 308). -/
def adMarker : String := "Ad Viewing ads is privacy protected by DuckDuckGo"

/-- `_extract_target_url` (flask_app.py lines 87-99): unwrap Google
`/url?q=` redirect links, otherwise return the href unchanged. -/
def extractTargetUrl (href : String) : String :=
  if href = "" then ""
  else if strLeads href "/url?" || strLeads href "https://www.google.com/url" then
    -- qs.get("q", [href])[0]
    (parseQsFirst (urlQuery href) "q").getD href
  else href

/-- The DuckDuckGo redirect-wrapper test of flask_app.py line 293. -/
def ddgWrapperHead : String := "//duckduckgo.com/l/?uddg="

/-- URL resolution of flask_app.py lines 292-303: a link of the wrapper
form has its `uddg` query parameter extracted with `parse_qs` and then
`unquote`d once more; any other link goes through `_extract_target_url`. -/
def resolveFlaskLink (link : String) : String :=
  if strLeads link ddgWrapperHead then
    match parseQsFirst (urlQuery link) "uddg" with
    | some v => unquoteStr v
    | none => link
  else extractTargetUrl link

/-- The per-container body of the extraction loop of
`fetch_google_results` (flask_app.py lines 277-318).  `none` models the
`continue` paths (missing title/link, falsy title or link). -/
def fetchGoogleOne (c : FcContainer) : Option FItem :=
  let title0 := c.titleText.map pyStrip
  let snippet := c.snippetText.map pyStrip
  match title0, c.linkHref with
  | some t, some link =>
    if t = "" ∨ link = "" then none   -- `if title and link:` fails
    else
      let url := resolveFlaskLink link
      -- title = ' '.join(title.split())
      let t1 := collapseWs t
      -- ad-marker truncation: title.split(marker)[0].strip()
      let t2 := if strContains t1 adMarker then pyStrip ⟨beforeSeq adMarker.data t1.data⟩ else t1
      some { title := t2, url := url, snippet := snippet }
  | _, _ => none

/-- The full extraction pass of `fetch_google_results` over the located
result containers (no `maxResults` cap exists in this extractor). -/
def fetchGoogleExtract (containers : List FcContainer) : List FItem :=
  containers.filterMap fetchGoogleOne

/-- The block-page phrase list of flask_app.py lines 236-243. -/
def flaskBlocks : List String :=
  ["Sorry, we are rate limiting requests",
   "Please prove you're not a robot",
   "We have detected unusual traffic",
   "CAPTCHA",
   "rate limit",
   "too many requests"]

/-- Block detection as written in flask_app.py line 245:
`any(b in html.lower() for b in blocks)` — the page HTML is lowercased,
the phrases are not. -/
def blockPageDetected (html : String) : Bool :=
  flaskBlocks.any (fun b => strContains (pyLower html) b)

/-- Case-insensitive containment — the matching the spec asks for. -/
def containsCI (hay needle : String) : Bool :=
  strContains (pyLower hay) (pyLower needle)

/-- The rendered state `fetch_google_results` sees for one navigation:
whether `page.goto` succeeded, the full `page.content()` HTML, and the
result containers the locators found in it. -/
structure FlaskPage where
  navOk : Bool
  html : String
  containers : List FcContainer

/-- `fetch_google_results` after navigation (flask_app.py lines 208-333):
navigation failure returns `[]`, a detected block page returns `[]`,
otherwise the containers are parsed. -/
def fetchGoogleRun (p : FlaskPage) : List FItem :=
  if ¬p.navOk then []
  else if blockPageDetected p.html then []
  else fetchGoogleExtract p.containers

/-! ### Result cache (flask_app.py lines 38-40, 359-384) -/

/-- `CACHE_TTL_SECONDS = 10 * 60`. -/
def CACHE_TTL_SECONDS : ℤ := 10 * 60

/-- The in-memory cache `{query: (results_list, timestamp_seconds)}`,
as an association list (timestamps in whole seconds). -/
abbrev Cache := List (String × List FItem × ℤ)

/-- Store into a python dict: replace the binding for `q`. -/
def cacheInsert (cache : Cache) (q : String) (v : List FItem × ℤ) : Cache :=
  (q, v) :: cache.filter (fun e => e.1 ≠ q)

/-- `CACHE.pop(query, None)`. -/
def cacheRemove (cache : Cache) (q : String) : Cache :=
  cache.filter (fun e => e.1 ≠ q)

/-- `get_cached` (flask_app.py lines 359-372): a fresh entry is returned,
an expired entry is popped, and the possibly-updated cache is threaded
through explicitly. -/
def get_cached (cache : Cache) (q : String) (now : ℤ) :
    Option (List FItem) × Cache :=
  match cache.lookup q with
  | none => (none, cache)
  | some entry =>
    -- results, ts = entry; age = now - ts
    if now - entry.2 ≤ CACHE_TTL_SECONDS then (some entry.1, cache)
    else (none, cacheRemove cache q)

/-- `set_cache` (flask_app.py lines 375-384): empty result lists are never
stored. -/
def set_cache (cache : Cache) (q : String) (results : List FItem) (now : ℤ) :
    Cache :=
  if results = [] then cache else cacheInsert cache q (results, now)

/-- Outcome of one `/search` request: the JSON body list, the HTTP
status, the updated cache, and whether `fetch_google_results` (the
navigation/extraction pipeline) was invoked. -/
structure SearchOutcome where
  body : List FItem
  status : Nat
  cache : Cache
  invoked : Bool

/-- The `/search` route of flask_app.py lines 393-412.  `fetchResults`
stands for what `fetch_google_results(query)` would return if invoked on
this call. -/
def search (cache : Cache) (rawQ : String) (now : ℤ)
    (fetchResults : List FItem) : SearchOutcome :=
  let query := pyStrip rawQ
  if query = "" then
    { body := [], status := 200, cache := cache, invoked := false }
  else
    let gc := get_cached cache query now
    match gc.1 with
    | some cached =>
      { body := cached, status := 200, cache := gc.2, invoked := false }
    | none =>
      { body := fetchResults, status := 200,
        cache := set_cache gc.2 query fetchResults now, invoked := true }

/-- A sequence of `/search` requests, threading the cache. -/
def runSearches (cache : Cache) :
    List (String × ℤ × List FItem) → Cache
  | [] => cache
  | (q, now, fetch) :: rest => runSearches (search cache q now fetch).cache rest

end FlaskApp

/-! ## `search_engine.py` — HTTP extractor `scrape_ddg_html` -/

namespace SearchEngine

/-- A result item (`{'title': ..., 'url': ..., 'snippet': ...}`). -/
structure SItem where
  title : String
  url : String
  snippet : String
deriving DecidableEq, Repr

/-- A link inside a result container, as BeautifulSoup exposes it:
its `href` attribute and the raw text that `get_text(strip=True)`
strips. -/
structure SeLink where
  href : String
  text : String
deriving DecidableEq, Repr

/-- A result container: its links (`find_all('a', href=True)`, document
order) and the raw texts of its `div`/`span`/`p` descendants used for
snippet search. -/
structure SeContainer where
  links : List SeLink
  textBlocks : List String
deriving DecidableEq, Repr

/-- The per-container body of search_engine.py lines 143-194.

`search_engine.py` never imports `urllib`, so the redirect branch at
lines 168-173 raises `NameError` on `urllib.parse.urlparse`; the
enclosing `except Exception` (line 192) then skips the container.  The
`'/l/?uddg=' in url` test therefore decides between a skipped container
and a normal emission, and is embedded as such. -/
def scrapeOne (c : SeContainer) : Option SItem :=
  match c.links.find? (fun l =>
      !strContains l.href "duckduckgo.com" && strLeads l.href "http") with
  | none => none                       -- `if not main_link: continue`
  | some mainLink =>
    let title := pyStrip mainLink.text
    if title = "" ∨ title.length < 5 then none  -- skip very short titles
    else
      let url := mainLink.href
      if strContains url "/l/?uddg=" then none  -- NameError → except → continue
      else
        let snippet := ((c.textBlocks.map pyStrip).find? (fun t =>
            50 < t.length && t != title)).getD ""
        if title ≠ "" ∧ url ≠ "" then some { title := title, url := url, snippet := snippet }
        else none

/-- The extraction loop over `result_containers[:max_results]`
(search_engine.py line 143). -/
def scrapeExtract (containers : List SeContainer) (maxResults : Nat) :
    List SItem :=
  (containers.take maxResults).filterMap scrapeOne

/-- Bot-detection check of search_engine.py lines 91 and 118:
`'bot' in text.lower() and ('challenge' in text.lower() or 'anomaly' in
text.lower())`. -/
def botDetected (text : String) : Bool :=
  strContains (pyLower text) "bot" &&
    (strContains (pyLower text) "challenge" || strContains (pyLower text) "anomaly")

/-- An HTTP response to one endpoint, as the repository's code consumes
it: its body text and the result containers BeautifulSoup finds in it
(after the selector cascade of lines 125-139). -/
structure SeResp where
  text : String
  containers : List SeContainer
deriving Repr

/-- One endpoint attempt: the outcome of the first `session.get` (an
exception covers connection errors and `raise_for_status`), and of the
retry with the alternative user agent should the first response trip bot
detection. -/
structure SeAttempt where
  fetch1 : Except PyExc SeResp
  fetch2 : Except PyExc SeResp

/-- The body of the per-endpoint `try` block of search_engine.py lines
80-201: fetch, retry on bot detection, re-check, parse.  `.error` is a
raised exception (caught by the orchestrating loop), `.ok []` covers
both the bot-detection `continue` and zero extracted results. -/
def attemptEndpoint (a : SeAttempt) (maxResults : Nat) :
    Except PyExc (List SItem) :=
  match a.fetch1 with
  | .error e => .error e
  | .ok r1 =>
    match (if botDetected r1.text then a.fetch2 else .ok r1) with
    | .error e => .error e
    | .ok r =>
      if botDetected r.text then
        .ok []                         -- "trying next endpoint..." (line 120)
      else
        .ok (scrapeExtract r.containers maxResults)

/-- `scrape_ddg_html` (search_engine.py lines 10-208) over its three
endpoints: each endpoint's exception is caught (line 203) and each empty
extraction falls through (line 201); the first nonempty extraction is
returned; exhaustion returns `[]` (line 208). -/
def scrape_ddg_html (attempts : List SeAttempt) (maxResults : Nat) :
    List SItem :=
  match attempts with
  | [] => []
  | a :: rest =>
    match attemptEndpoint a maxResults with
    | .ok (r :: rs) => r :: rs
    | _ => scrape_ddg_html rest maxResults

end SearchEngine

/-! ## `simple_ddg_scraper.py` — HTTP extractor with working uddg decode -/

namespace SimpleDdg

/-- The per-container body of simple_ddg_scraper.py lines 55-103.  This
file imports `urllib.parse` locally (line 82), so its redirect branch
works: the `uddg` parameter is read with `parse_qs` and then `unquote`d
once more. -/
def scrapeOne (c : SearchEngine.SeContainer) : Option SearchEngine.SItem :=
  match c.links.find? (fun l =>
      !strContains l.href "duckduckgo.com" && strLeads l.href "http") with
  | none => none
  | some mainLink =>
    let title := pyStrip mainLink.text
    if title = "" ∨ title.length < 5 then none
    else
      let url0 := mainLink.href
      let url :=
        if strContains url0 "/l/?uddg=" then
          match parseQsFirst (urlQuery url0) "uddg" with
          | some v => unquoteStr v
          | none => url0
        else url0
      let snippet := ((c.textBlocks.map pyStrip).find? (fun t =>
          50 < t.length && t != title)).getD ""
      if title ≠ "" ∧ url ≠ "" then
        some { title := title, url := url, snippet := snippet }
      else none

/-- The extraction loop of `scrape_ddg_html` in simple_ddg_scraper.py
over `result_containers[:max_results]`. -/
def scrape_ddg_html (containers : List SearchEngine.SeContainer)
    (maxResults : Nat) : List SearchEngine.SItem :=
  (containers.take maxResults).filterMap scrapeOne

end SimpleDdg

/-! ## `ddg_scraper.py` — `ddg_search` and `_ddg_requests_search` -/

namespace DdgScraper

/-- A candidate result element of `_ddg_requests_search` after the
BeautifulSoup extraction of lines 87-106: the stripped title text, the
`href` (already defaulted to `''` by `.get('href', '')` when absent),
and the stripped snippet text. -/
structure DsDiv where
  title : String
  link : String
  snippet : String
deriving DecidableEq, Repr

/-- The per-element body of ddg_scraper.py lines 87-124: decode a
`/l/?uddg=` redirect with `parse_qs` (no further `unquote`), skip
relative links, and emit when both title and link are truthy. -/
def requestsOne (d : DsDiv) : Option SearchEngine.SItem :=
  let link1 : Option String :=
    if d.link ≠ "" ∧ strLeads d.link "/l/?uddg=" then
      some (match parseQsFirst (urlQuery d.link) "uddg" with
            | some v => v
            | none => d.link)
    else if d.link ≠ "" ∧ ¬strLeads d.link "http" then
      none                             -- "Skip relative links"
    else some d.link
  match link1 with
  | none => none
  | some link =>
    if d.title ≠ "" ∧ link ≠ "" then
      some { title := d.title, url := link, snippet := d.snippet }
    else none

/-- `_ddg_requests_search` (ddg_scraper.py lines 24-135): a failed fetch
reaches the `except` clause at line 133, which logs and **re-raises**;
a successful fetch parses `result_divs[:max_results]`. -/
def ddgRequestsSearch (fetched : Except PyExc (List DsDiv)) (maxResults : Nat) :
    Except PyExc (List SearchEngine.SItem) :=
  match fetched with
  | .error e => .error e               -- `raise` (line 135)
  | .ok divs => .ok ((divs.take maxResults).filterMap requestsOne)

/-- The `try` branch of `ddg_search` (ddg_scraper.py line 19): it calls
`_ddg_html_search`, a function that is defined nowhere, so the call
itself raises `NameError` before any searching happens. -/
def ddgHtmlSearchCall : Except PyExc (List SearchEngine.SItem) :=
  .error (PyExc.exc "NameError: name '_ddg_html_search' is not defined")

/-- `ddg_search` (ddg_scraper.py lines 10-22): try `_ddg_html_search`
(always a `NameError`, caught at line 20), then return
`_ddg_requests_search(query, max_results)` — a call that sits inside the
`except` handler with no further catching, so its exceptions propagate
to `ddg_search`'s caller.  `_ddg_playwright_search` is never invoked. -/
def ddg_search (fetched : Except PyExc (List DsDiv)) (maxResults : Nat) :
    Except PyExc (List SearchEngine.SItem) :=
  match ddgHtmlSearchCall with
  | .ok rs => .ok rs
  | .error _ => ddgRequestsSearch fetched maxResults

end DdgScraper

/-! ## `index.py` — the `/search` route of the integrated app -/

namespace IndexApp

/-- The response of the `/search` route of index.py: HTTP status and
whether `scrape_ddg_html` (the retrieval pipeline) was invoked. -/
structure RouteOutcome where
  status : Nat
  invoked : Bool
deriving DecidableEq, Repr

/-- The `/search` route of index.py lines 137-176: a blank query is
rejected with 400 before the pipeline runs; an unavailable engine gives
503; a raised search exception gives 500; success gives 200. -/
def search (rawQ : String) (engineAvailable : Bool)
    (scrape : Except PyExc (List SearchEngine.SItem)) : RouteOutcome :=
  let query := pyStrip rawQ
  if query = "" then { status := 400, invoked := false }
  else if ¬engineAvailable then { status := 503, invoked := false }
  else
    match scrape with
    | .ok _ => { status := 200, invoked := true }
    | .error _ => { status := 500, invoked := true }

end IndexApp

/-! ## `emotion_classifier.py` — scoring interface -/

namespace Emotion

/-- The text-scanning results that `calculate_psychological_scores`
(emotion_classifier.py lines 476-564) derives from the input text with
substring tests, `str.count`, `str.endswith`, `len(text.split())` and the
`re` library.  Each field records the outcome of one scan:

* `posEmojiCount` / `negEmojiCount` — total occurrences of the
  positive/negative signal emojis (`text.count`, lines 483-485, 503-505);
* `posExprCount` / `negExprCount` — how many of the listed
  expressions occur in `text.lower()` (lines 487-489, 507-509);
* `hasTripleBang`, `hasDoubleBang` — `'!!!' in text`, `'!!' in text`
  (the latter also decides `re.search(r'!\x7b2,\x7d', text)`);
* `endsBang`, `endsEllipsis` — `text.endswith('!')`, `('...')`;
* `hasEllipsis` — `'...' in text` (also decides the `\.\x7b3,\x7d` search);
* `repMatchLens` — lengths of the `re.finditer` matches of the two
  repetition patterns (line 523-526);
* `capsWordCount` — `len(re.findall(r'\b[A-Z]\x7b2,\x7d\b', text))`;
* `hasMultiQ` — `re.search(r'\?\x7b2,\x7d', text)`;
* `questionRunCount` — `len(re.findall(r'\?+', text))`;
* `wordCount` — `len(text.split())`. -/
structure TextFeatures where
  posEmojiCount : Nat
  posExprCount : Nat
  hasTripleBang : Bool
  hasDoubleBang : Bool
  endsBang : Bool
  negEmojiCount : Nat
  negExprCount : Nat
  hasEllipsis : Bool
  endsEllipsis : Bool
  repMatchLens : List Nat
  capsWordCount : Nat
  hasMultiQ : Bool
  questionRunCount : Nat
  wordCount : Nat
deriving Repr

/-- The five psychological scores
(`positive_valence`, `negative_valence`, `high_arousal`,
`high_engagement`, `neutral_regulation`). -/
structure Scores where
  positive_valence : ℚ
  negative_valence : ℚ
  high_arousal : ℚ
  high_engagement : ℚ
  neutral_regulation : ℚ
deriving Repr

/-- `calculate_psychological_scores` (emotion_classifier.py lines
476-564), with the text scans supplied as `TextFeatures`. -/
def calculate_psychological_scores (f : TextFeatures) : Scores :=
  -- positive signals: emojis amplify by count, expressions add 1.5 each,
  -- then the if/elif/elif punctuation ladder (lines 492-497)
  let positive_score : ℚ :=
    2 * f.posEmojiCount + 3/2 * f.posExprCount +
      (if f.hasTripleBang then 6/5 else if f.hasDoubleBang then 4/5
       else if f.endsBang then 1/2 else 0)
  -- negative signals (lines 502-515): two independent ifs for "..."
  let negative_score : ℚ :=
    2 * f.negEmojiCount + 3/2 * f.negExprCount +
      (if f.hasEllipsis then 4/5 else 0) +
      (if f.endsEllipsis then 1/2 else 0)
  -- intensity (lines 520-538): repetition matches add 1.0 + len*0.1,
  -- ALL-CAPS words add 1.5 each, multi-punctuation adds fixed boosts
  let intensity_score : ℚ :=
    (f.repMatchLens.map (fun n : Nat => 1 + (n : ℚ) / 10)).sum +
      3/2 * f.capsWordCount +
      (if f.hasDoubleBang then 6/5 else 0) +
      (if f.hasMultiQ then 1 else 0) +
      (if f.hasEllipsis then 4/5 else 0)
  -- engagement (lines 543-556)
  let engagement_score : ℚ :=
    4/5 * f.questionRunCount +
      (if 20 < f.wordCount then 2 else if 10 < f.wordCount then 1
       else if f.wordCount ≤ 3 then -1/2 else 0)
  -- neutral baseline (lines 560-562)
  let total_activity :=
    positive_score + negative_score + intensity_score + |engagement_score|
  { positive_valence := positive_score
    negative_valence := negative_score
    high_arousal := intensity_score
    high_engagement := engagement_score
    neutral_regulation := max 0 (1 - total_activity / 10) }

/-- The DistilBERT enhancement step of `classify_query`
(emotion_classifier.py lines 975-986): when the emotion-percentage dict
is nonempty, `joy`, `sadness`, `anger` and `fear` raise the matching
scores via `max(score, percentage / 10)`. -/
def enhanceJoy (s : Scores) (db : List (String × ℚ)) : Scores :=
  match db.lookup "joy" with
  | some v => { s with positive_valence := max s.positive_valence (v / 10) }
  | none => s

def enhanceSadness (s : Scores) (db : List (String × ℚ)) : Scores :=
  match db.lookup "sadness" with
  | some v => { s with negative_valence := max s.negative_valence (v / 10) }
  | none => s

def enhanceAnger (s : Scores) (db : List (String × ℚ)) : Scores :=
  match db.lookup "anger" with
  | some v => { s with
                negative_valence := max s.negative_valence (v / 10)
                high_arousal := max s.high_arousal (v / 10) }
  | none => s

def enhanceFear (s : Scores) (db : List (String × ℚ)) : Scores :=
  match db.lookup "fear" with
  | some v => { s with
                negative_valence := max s.negative_valence (v / 10)
                high_arousal := max s.high_arousal (v / 10) }
  | none => s

def enhanceScores (s : Scores) (db : List (String × ℚ)) : Scores :=
  if db = [] then s
  else enhanceFear (enhanceAnger (enhanceSadness (enhanceJoy s db) db) db) db

/-- `determine_psychological_state` (emotion_classifier.py lines
566-615): the primary state and confidence. -/
def determine_psychological_state (s : Scores) : String × ℚ :=
  if s.positive_valence > 2 then
    if s.high_arousal > 1 then
      ("high_positive_arousal", min (19/20) (1/2 + s.positive_valence / 10))
    else ("positive_valence", min (9/10) (2/5 + s.positive_valence / 10))
  else if s.negative_valence > 2 then
    if s.high_arousal > 1 then
      ("high_negative_arousal", min (19/20) (1/2 + s.negative_valence / 10))
    else ("negative_valence", min (9/10) (2/5 + s.negative_valence / 10))
  else if s.high_arousal > 3/2 then
    ("high_intensity_state", min (9/10) (3/10 + s.high_arousal * 8 / 100))
  else if s.high_engagement > 2 then
    ("high_engagement", min (17/20) (2/5 + s.high_engagement / 20))
  else if s.high_engagement < -3/10 then
    if s.positive_valence < 1/2 ∧ s.high_arousal < 1/2 then
      ("low_engagement_shutdown", min (4/5) (3/5 + |s.high_engagement| / 5))
    else
      ("brief_communication", min (7/10) (2/5 + |s.high_engagement| * 3 / 20))
  else if s.neutral_regulation > 7/10 then
    ("neutral_regulation", s.neutral_regulation)
  else if |s.positive_valence - s.negative_valence| < 1 ∧
      (s.positive_valence > 1 ∨ s.negative_valence > 1) then
    ("mixed_valence",
      min (3/4) (3/10 + (s.positive_valence + s.negative_valence) / 20))
  else
    ("neutral_regulation", max (1/2) s.neutral_regulation)

/-- `determine_tool_from_psychology`
(emotion_classifier.py lines 652-669): the state→tool table with
`web_search` as the default. -/
def determine_tool_from_psychology (primaryState : String) : String :=
  ([("high_positive_arousal", "music"),
    ("positive_valence", "music"),
    ("high_negative_arousal", "meditation"),
    ("negative_valence", "meditation"),
    ("high_intensity_state", "meditation"),
    ("high_engagement", "web_search"),
    ("low_engagement_shutdown", "meditation"),
    ("brief_communication", "web_search"),
    ("mixed_valence", "journal"),
    ("neutral_regulation", "web_search")].lookup primaryState).getD
    "web_search"

/-- Clamp a profile value to [-1, 1]
(emotion_classifier.py lines 999-1001). -/
def clampProfile (x : ℚ) : ℚ := max (-1) (min 1 x)

/-- The classification record, restricted to the fields the external
interface contract constrains (`primary_state`, `confidence`, `tool`,
`psychological_profile` as a key→value dict, and the `error` field the
fallbacks carry). -/
structure Record where
  primary_state : String
  confidence : ℚ
  tool : String
  psychological_profile : List (String × ℚ)
  error : Option PyExc
deriving Repr

/-- The success path of `classify_query` (emotion_classifier.py lines
957-1034): score, enhance with the emotion percentages, pick the primary
state, build the profile dict and clamp every entry to [-1, 1]. -/
def classifySuccess (f : TextFeatures) (db : List (String × ℚ)) : Record :=
  let scores := enhanceScores (calculate_psychological_scores f) db
  let (primary_state, confidence) := determine_psychological_state scores
  let profile : List (String × ℚ) :=
    [("valence", (scores.positive_valence - scores.negative_valence) / 10),
     ("arousal", scores.high_arousal / 10),
     ("engagement", scores.high_engagement / 10),
     ("regulation", scores.neutral_regulation)]
  { primary_state := primary_state
    confidence := confidence
    tool := determine_tool_from_psychology primary_state
    psychological_profile := profile.map (fun p => (p.1, clampProfile p.2))
    error := none }

/-- The `except` fallback of `classify_query` (emotion_classifier.py
lines 1036-1047). -/
def classifyFallback (e : PyExc) : Record :=
  { primary_state := "neutral_regulation"
    confidence := 1
    tool := "web_search"
    psychological_profile :=
      [("valence", 0), ("arousal", 0), ("engagement", 0), ("regulation", 1)]
    error := some e }

/-- The model-unavailable early return of `classify_query`
(emotion_classifier.py lines 945-955); its profile dict has no
`regulation` key. -/
def classifyUnavailable : Record :=
  { primary_state := "neutral_regulation"
    confidence := 1
    tool := "web_search"
    psychological_profile := [("valence", 0), ("arousal", 0), ("engagement", 0)]
    error := some (PyExc.exc "Model not available") }

/-- `load_model` (emotion_classifier.py lines 730-777): the whole body is
wrapped in `try`/`except`; the `except` arm also sets `_model_loaded`
and returns `True`, so the function returns `True` on every outcome of
the model-loading attempt. -/
def load_model (attempt : Except PyExc Unit) : Bool :=
  match attempt with
  | .ok _ => true                      -- model loaded
  | .error _ => true                   -- "Falling back to rule-based classification only"

/-- `classify_query` (emotion_classifier.py lines 927-1047).
`modelLoaded` is the `_model_loaded` global, `loadAttempt` the outcome
of loading the DistilBERT model, and `analysis` the combined outcome of
every step inside the `try` block (text scans plus the emotion
percentages) — `.error` when any of those steps raises.  The result is
always `.ok`: every failure is converted to a fallback record. -/
def classify_query (modelLoaded : Bool) (loadAttempt : Except PyExc Unit)
    (analysis : Except PyExc (TextFeatures × List (String × ℚ))) :
    Except PyExc Record :=
  if ¬modelLoaded ∧ ¬load_model loadAttempt then
    .ok classifyUnavailable
  else
    match analysis with
    | .ok (f, db) => .ok (classifySuccess f db)
    | .error e => .ok (classifyFallback e)

end Emotion

/-! ## Supporting lemmas about the string model -/

theorem dropWhile_head_eq_self (p : Char → Bool) (l : List Char)
    (h : ∀ x, l.head? = some x → p x = false) : List.dropWhile p l = l := by
  cases l with
  | nil => rfl
  | cons a t => simp [List.dropWhile_cons, h a rfl]

theorem dropWhile_idem (p : Char → Bool) (l : List Char) :
    List.dropWhile p (List.dropWhile p l) = List.dropWhile p l := by
  induction l with
  | nil => simp
  | cons a t ih =>
    by_cases hp : p a
    · simp [List.dropWhile_cons, hp, ih]
    · simp [List.dropWhile_cons, hp]

/-- The head of a fully stripped list never satisfies the stripping
predicate. -/
theorem stripCore_head (p : Char → Bool) (l : List Char) :
    ∀ x, ((List.dropWhile p (List.dropWhile p l).reverse).reverse).head? = some x →
      p x = false := by
  intro x hx
  set A := List.dropWhile p l with hA
  set C := List.dropWhile p A.reverse with hC
  have h1 : C.getLast? = some x := by
    have := List.getLast?_reverse C.reverse
    rw [List.reverse_reverse] at this
    rw [this]
    exact hx
  have hCne : C ≠ [] := by
    intro h
    rw [h] at h1
    simp at h1
  obtain ⟨pre, hpre⟩ : C <:+ A.reverse := List.dropWhile_suffix p
  have h2 : A.reverse.getLast? = some x := by
    rw [← hpre, List.getLast?_append_of_ne_nil pre hCne]
    exact h1
  rw [List.getLast?_reverse] at h2
  have := List.head?_dropWhile_not p l
  rw [← hA] at this
  rw [h2] at this
  exact this

theorem pyStrip_idem (s : String) : pyStrip (pyStrip s) = pyStrip s := by
  have key :
      (List.dropWhile Char.isWhitespace
        (List.dropWhile Char.isWhitespace
          ((List.dropWhile Char.isWhitespace
            (List.dropWhile Char.isWhitespace s.data).reverse).reverse)).reverse).reverse =
      (List.dropWhile Char.isWhitespace
        (List.dropWhile Char.isWhitespace s.data).reverse).reverse := by
    have hB := dropWhile_head_eq_self _ _ (stripCore_head Char.isWhitespace s.data)
    rw [hB, List.reverse_reverse, dropWhile_idem]
  exact congrArg String.mk key

/-! ## Claims -/

/-- C1 (counterexample).  The claim fails on `fetch_google_results`: a
result container whose link locator carries the relative href
`/relative/path` and whose title text is `Hi!` (three characters) is
emitted verbatim — the url has no URI scheme and the title is below the
five-character minimum that only `scrape_ddg_html` enforces. -/
theorem fetch_google_emits_relative_url_and_short_title :
    FlaskApp.fetchGoogleExtract
        [{ titleText := some "Hi!", linkHref := some "/relative/path",
           snippetText := none }] =
      [{ title := "Hi!", url := "/relative/path", snippet := none }] ∧
    hasUriScheme "/relative/path" = false ∧
    "Hi!".length < 5 := by
  refine ⟨by decide, by decide, by decide⟩

/-- C1 (amended).  Every item returned by the HTTP extractor
`scrape_ddg_html` of search_engine.py has a title that is its own
whitespace-trimming, nonempty, and at least five characters long, and a
url that starts with `http` and is neither a DuckDuckGo link nor a
redirect-wrapper href.  (The browser extractor `fetch_google_results`
checks only that a title and href are present — see the
counterexample.) -/
theorem scrape_ddg_html_items_wellformed
    (containers : List SearchEngine.SeContainer) (maxResults : Nat)
    (item : SearchEngine.SItem)
    (hmem : item ∈ SearchEngine.scrapeExtract containers maxResults) :
    item.title ≠ "" ∧ 5 ≤ item.title.length ∧
    pyStrip item.title = item.title ∧
    strLeads item.url "http" = true ∧
    strContains item.url "duckduckgo.com" = false ∧
    strContains item.url "/l/?uddg=" = false := by
  rw [SearchEngine.scrapeExtract, List.mem_filterMap] at hmem
  obtain ⟨c, _, hone⟩ := hmem
  rw [SearchEngine.scrapeOne] at hone
  cases hfind : c.links.find? (fun l =>
      !strContains l.href "duckduckgo.com" && strLeads l.href "http") with
  | none => rw [hfind] at hone; exact absurd hone (by simp)
  | some mainLink =>
    rw [hfind] at hone
    have hpred := List.find?_some hfind
    rw [Bool.and_eq_true, Bool.not_eq_true'] at hpred
    simp only at hone
    split at hone
    · exact absurd hone (by simp)
    · rename_i htitle
      push_neg at htitle
      split at hone
      · exact absurd hone (by simp)
      · rename_i huddg
        split at hone
        · rename_i hne
          have hitem := Option.some.inj hone
          subst hitem
          refine ⟨htitle.1, by simpa using htitle.2, pyStrip_idem _, hpred.2, hpred.1, ?_⟩
          simpa using huddg
        · exact absurd hone (by simp)

/-- C1 (witness): the amended theorem applied to one concrete container
holding a single well-formed result link. -/
theorem scrape_ddg_html_items_wellformed_witness :
    ("Example Domain" : String) ≠ "" ∧
    5 ≤ ("Example Domain" : String).length ∧
    pyStrip "Example Domain" = "Example Domain" ∧
    strLeads "https://example.com" "http" = true ∧
    strContains "https://example.com" "duckduckgo.com" = false ∧
    strContains "https://example.com" "/l/?uddg=" = false :=
  scrape_ddg_html_items_wellformed
    [{ links := [{ href := "https://example.com", text := " Example Domain " }],
       textBlocks := [] }] 10
    { title := "Example Domain", url := "https://example.com", snippet := "" }
    (by decide)

/-! ### Lemmas about query-string parsing and decoding -/

theorem seqLead_append_self (p l : List Char) : seqLead p (p ++ l) = true := by
  induction p with
  | nil => rfl
  | cons a t ih => simp [seqLead, ih]

theorem strLeads_append_self (p r : String) : strLeads (p ++ r) p = true := by
  rw [strLeads, String.data_append]
  exact seqLead_append_self p.data r.data

theorem percentDecodeList_length_le (l : List Char) :
    (percentDecodeList l).length ≤ l.length := by
  induction l using percentDecodeList.induct with
  | case1 => simp [percentDecodeList]
  | case2 a b rest va vb hva hvb ih =>
    simp only [percentDecodeList, hva, hvb, List.length_cons]
    omega
  | case3 a b rest hx ih =>
    have hred : percentDecodeList ('%' :: a :: b :: rest) =
        '%' :: percentDecodeList (a :: b :: rest) := by
      simp only [percentDecodeList]
    rw [hred]
    simp only [List.length_cons] at ih ⊢
    omega
  | case4 c rest h ih =>
    simp only [percentDecodeList, List.length_cons]
    omega

theorem unquoteStr_length_le (s : String) : (unquoteStr s).length ≤ s.length :=
  percentDecodeList_length_le s.data

theorem unquotePlusStr_length_le (s : String) :
    (unquotePlusStr s).length ≤ s.length := by
  have h := percentDecodeList_length_le
    (s.data.map (fun c => if c == '+' then ' ' else c))
  rw [List.length_map] at h
  exact h

theorem takeUntilChar_not_mem (c : Char) (l : List Char) (h : c ∉ l) :
    takeUntilChar c l = l := by
  induction l with
  | nil => rfl
  | cons a t ih =>
    have hne : (a == c) = false := by
      simp only [List.mem_cons, not_or] at h
      simp [beq_iff_eq]
      exact fun he => h.1 he.symm
    simp [takeUntilChar, hne, ih (by intro ht; exact h (List.mem_cons_of_mem a ht))]

theorem dropPastChar_append_left (c : Char) (l1 l2 : List Char) (h : c ∉ l1) :
    dropPastChar c (l1 ++ l2) = dropPastChar c l2 := by
  induction l1 with
  | nil => rfl
  | cons a t ih =>
    have hne : (a == c) = false := by
      simp only [List.mem_cons, not_or] at h
      simp [beq_iff_eq]
      exact fun he => h.1 he.symm
    simp [dropPastChar, hne,
      ih (by intro ht; exact h (List.mem_cons_of_mem a ht))]

theorem takeUntilChar_append_left (c : Char) (l1 l2 : List Char) (h : c ∉ l1) :
    takeUntilChar c (l1 ++ l2) = l1 ++ takeUntilChar c l2 := by
  induction l1 with
  | nil => rfl
  | cons a t ih =>
    have hne : (a == c) = false := by
      simp only [List.mem_cons, not_or] at h
      simp [beq_iff_eq]
      exact fun he => h.1 he.symm
    simp [takeUntilChar, hne,
      ih (by intro ht; exact h (List.mem_cons_of_mem a ht))]

theorem splitOnChar_not_mem (c : Char) (l : List Char) (h : c ∉ l) :
    splitOnChar c l = [l] := by
  induction l with
  | nil => rfl
  | cons a t ih =>
    have hne : (a == c) = false := by
      simp only [List.mem_cons, not_or] at h
      simp [beq_iff_eq]
      exact fun he => h.1 he.symm
    simp [splitOnChar, hne,
      ih (by intro ht; exact h (List.mem_cons_of_mem a ht))]

/-- `urlparse(s).query` when `s` splits as `p0 ++ "?" ++ rest` with no
earlier `?` and no `#` anywhere. -/
theorem urlQuery_of_split (s : String) (p0 rest : List Char)
    (hs : s.data = p0 ++ '?' :: rest)
    (hq : '?' ∉ p0) (hh : '#' ∉ p0) (hh2 : '#' ∉ rest) :
    urlQuery s = ⟨rest⟩ := by
  rw [urlQuery, hs]
  rw [takeUntilChar_not_mem '#' (p0 ++ '?' :: rest) (by
    intro hmem
    rcases List.mem_append.mp hmem with h1 | h2
    · exact hh h1
    · rcases List.mem_cons.mp h2 with h3 | h4
      · exact absurd h3 (by decide)
      · exact hh2 h4)]
  rw [dropPastChar_append_left '?' p0 ('?' :: rest) hq]
  simp [dropPastChar]

/-- `parse_qs` of a single-pair query `uddg=<raw>`: the raw value is
`unquote_plus`d. -/
theorem parseQsFirst_uddg (raw : String) (hne : raw ≠ "")
    (hamp : '&' ∉ raw.data) :
    parseQsFirst ("uddg=" ++ raw) "uddg" = some (unquotePlusStr raw) := by
  have hdata : ("uddg=" ++ raw).data = "uddg".data ++ '=' :: raw.data := by
    rw [String.data_append]
    rfl
  rw [parseQsFirst, hdata]
  rw [splitOnChar_not_mem '&' _ (by
    intro hmem
    rcases List.mem_append.mp hmem with h1 | h2
    · exact absurd h1 (by decide)
    · rcases List.mem_cons.mp h2 with h3 | h4
      · exact absurd h3 (by decide)
      · exact hamp h4)]
  have hsplit : splitFirstEq ("uddg".data ++ '=' :: raw.data) =
      some ("uddg".data, raw.data) := by
    rw [splitFirstEq,
      dropPastChar_append_left '=' _ _ (by decide),
      takeUntilChar_append_left '=' _ _ (by decide)]
    simp [dropPastChar, takeUntilChar]
  have hraw : raw.data.isEmpty = false := by
    cases hd : raw.data with
    | nil => exact absurd (congrArg String.mk hd) hne
    | cons a t => rfl
  simp only [List.filterMap, hsplit, hraw, Bool.false_eq_true, if_false]
  have hname : unquotePlusStr ⟨"uddg".data⟩ = "uddg" := by decide
  rw [hname]
  simp [List.lookup]

/-- C2 (counterexample).  A wrapper link whose `uddg` parameter encodes
the destination `https://e.com/100%25off` (a URL containing a literal
percent-escape) is decoded twice by `fetch_google_results` — once by
`parse_qs` and once more by `unquote` — so the emitted url is
`https://e.com/100%off`, not the percent-decoded destination. -/
theorem uddg_double_decode_counterexample :
    FlaskApp.fetchGoogleExtract
        [{ titleText := some "Example Site",
           linkHref := some "//duckduckgo.com/l/?uddg=https%3A%2F%2Fe.com%2F100%2525off",
           snippetText := none }] =
      [{ title := "Example Site", url := "https://e.com/100%off",
         snippet := none }] ∧
    unquoteStr "https%3A%2F%2Fe.com%2F100%2525off" = "https://e.com/100%25off" ∧
    (("https://e.com/100%off" : String) == "https://e.com/100%25off") = false := by
  refine ⟨by decide, by decide, by decide⟩

/-- C2 (amended).  For a wrapper-form link carrying a `uddg` value `raw`
(no `&` or `#`), `fetch_google_results` emits the value decoded by
`parse_qs` and then percent-decoded a second time — which equals the
single percent-decoded destination whenever that decode leaves no
percent signs or plus signs — and never the wrapper URL itself;
`_ddg_requests_search` emits the value decoded once by `parse_qs`. -/
theorem uddg_resolution_amended (raw : String) (hne : raw ≠ "")
    (hamp : '&' ∉ raw.data) (hhash : '#' ∉ raw.data) :
    (FlaskApp.resolveFlaskLink (FlaskApp.ddgWrapperHead ++ raw)
        = unquoteStr (unquotePlusStr raw) ∧
      FlaskApp.resolveFlaskLink (FlaskApp.ddgWrapperHead ++ raw)
        ≠ FlaskApp.ddgWrapperHead ++ raw) ∧
    (∀ t sn : String, t ≠ "" → unquotePlusStr raw ≠ "" →
      DdgScraper.requestsOne
          { title := t, link := "/l/?uddg=" ++ raw, snippet := sn }
        = some { title := t, url := unquotePlusStr raw, snippet := sn }) := by
  have hq1 : urlQuery (FlaskApp.ddgWrapperHead ++ raw) = "uddg=" ++ raw := by
    have hs : (FlaskApp.ddgWrapperHead ++ raw).data =
        "//duckduckgo.com/l/".data ++ '?' :: ("uddg=".data ++ raw.data) := by
      rw [String.data_append]
      show "//duckduckgo.com/l/".data ++ '?' :: "uddg=".data ++ raw.data = _
      simp
    have h := urlQuery_of_split _ _ _ hs (by decide) (by decide) (by
      intro hmem
      rcases List.mem_append.mp hmem with h1 | h2
      · exact absurd h1 (by decide)
      · exact hhash h2)
    rw [h]
    exact (congrArg String.mk (String.data_append "uddg=" raw)).symm
  have hq2 : urlQuery ("/l/?uddg=" ++ raw) = "uddg=" ++ raw := by
    have hs : (("/l/?uddg=" ++ raw) : String).data =
        "/l/".data ++ '?' :: ("uddg=".data ++ raw.data) := by
      rw [String.data_append]
      show "/l/".data ++ '?' :: "uddg=".data ++ raw.data = _
      simp
    have h := urlQuery_of_split _ _ _ hs (by decide) (by decide) (by
      intro hmem
      rcases List.mem_append.mp hmem with h1 | h2
      · exact absurd h1 (by decide)
      · exact hhash h2)
    rw [h]
    exact (congrArg String.mk (String.data_append "uddg=" raw)).symm
  have hparse := parseQsFirst_uddg raw hne hamp
  constructor
  · have hlead : strLeads (FlaskApp.ddgWrapperHead ++ raw) FlaskApp.ddgWrapperHead
        = true := strLeads_append_self _ _
    have hres : FlaskApp.resolveFlaskLink (FlaskApp.ddgWrapperHead ++ raw)
        = unquoteStr (unquotePlusStr raw) := by
      rw [FlaskApp.resolveFlaskLink, if_pos hlead, hq1, hparse]
    refine ⟨hres, ?_⟩
    rw [hres]
    intro heq
    have hlen := congrArg String.length heq
    have h1 : (unquoteStr (unquotePlusStr raw)).length ≤ raw.length :=
      le_trans (unquoteStr_length_le _) (unquotePlusStr_length_le _)
    rw [String.length_append] at hlen
    have h2 : FlaskApp.ddgWrapperHead.length = 25 := by decide
    omega
  · intro t sn ht hv
    have hlead : strLeads ("/l/?uddg=" ++ raw) "/l/?uddg=" = true :=
      strLeads_append_self _ _
    have hlink_ne : ("/l/?uddg=" ++ raw : String) ≠ "" := by
      intro h
      have hl1 := congrArg String.length h
      rw [String.length_append] at hl1
      have hl2 : ("/l/?uddg=" : String).length = 9 := by decide
      have hl0 : ("" : String).length = 0 := by decide
      omega
    rw [DdgScraper.requestsOne]
    simp only [hlink_ne, hlead, ne_eq, not_false_eq_true, true_and, if_pos, hq2, hparse]
    simp [ht, hv]

/-- C2 (witness): the amended theorem applied to a concrete wrapper link
whose decoded destination has no residual escapes. -/
theorem uddg_resolution_amended_witness :
    FlaskApp.resolveFlaskLink (FlaskApp.ddgWrapperHead ++ "https%3A%2F%2Fe.com")
      = unquoteStr (unquotePlusStr "https%3A%2F%2Fe.com") ∧
    DdgScraper.requestsOne
        { title := "Example site", link := "/l/?uddg=" ++ "https%3A%2F%2Fe.com",
          snippet := "" }
      = some { title := "Example site",
               url := unquotePlusStr "https%3A%2F%2Fe.com", snippet := "" } :=
  ⟨(uddg_resolution_amended "https%3A%2F%2Fe.com" (by decide) (by decide)
      (by decide)).1.1,
   (uddg_resolution_amended "https%3A%2F%2Fe.com" (by decide) (by decide)
      (by decide)).2 "Example site" "" (by decide) (by decide)⟩

/-- C3 (code_bug).  `scrape_ddg_html` keeps every endpoint failure inside
its loop and returns `[]` on exhaustion, but `ddg_search` does not: its
primary call `_ddg_html_search` is a `NameError` (the function is
defined nowhere), and the `_ddg_requests_search` call in the `except`
handler re-raises fetch failures with no further catching — so a
connection error in the plain HTTP fetch propagates to `ddg_search`'s
caller instead of yielding `[]`. -/
theorem ddg_search_propagates_network_error :
    DdgScraper.ddg_search
        (.error (PyExc.exc "ConnectionError: duckduckgo.com unreachable")) 10
      = .error (PyExc.exc "ConnectionError: duckduckgo.com unreachable") ∧
    (∀ (attempts : List SearchEngine.SeAttempt) (maxResults : Nat),
      (∀ a ∈ attempts, ∀ items,
          SearchEngine.attemptEndpoint a maxResults = .ok items → items = []) →
      SearchEngine.scrape_ddg_html attempts maxResults = []) := by
  constructor
  · rfl
  · intro attempts maxResults hall
    induction attempts with
    | nil => rfl
    | cons a rest ih =>
      rw [SearchEngine.scrape_ddg_html]
      have hrest := ih (fun b hb => hall b (List.mem_cons_of_mem a hb))
      cases hatt : SearchEngine.attemptEndpoint a maxResults with
      | error e => exact hrest
      | ok items =>
        have hempty := hall a (List.mem_cons_self a rest) items hatt
        subst hempty
        exact hrest

/-- C3 (witness): the failure-exhaustion conjunct applied to one
concrete attempt list whose single endpoint raises. -/
theorem ddg_search_propagates_network_error_witness :
    SearchEngine.scrape_ddg_html
        [{ fetch1 := .error (PyExc.exc "Timeout"),
           fetch2 := .error (PyExc.exc "Timeout") }] 10 = [] :=
  ddg_search_propagates_network_error.2
    [{ fetch1 := .error (PyExc.exc "Timeout"),
       fetch2 := .error (PyExc.exc "Timeout") }] 10
    (by intro a ha items hatt
        simp only [List.mem_singleton] at ha
        subst ha
        simp [SearchEngine.attemptEndpoint] at hatt)

/-- C4 (code_bug).  flask_app.py lowercases the page HTML but not the
block phrases, so any phrase containing an uppercase letter can never
match: a page containing `CAPTCHA` — a phrase of the fixed list,
present case-insensitively — is not classified as blocked, and
extraction proceeds on its content instead of being abandoned. -/
theorem captcha_page_not_flagged_blocked :
    FlaskApp.flaskBlocks.any
        (fun b => FlaskApp.containsCI
          "Please complete the CAPTCHA to continue" b) = true ∧
    FlaskApp.blockPageDetected "Please complete the CAPTCHA to continue" = false ∧
    FlaskApp.fetchGoogleRun
        { navOk := true,
          html := "Please complete the CAPTCHA to continue",
          containers := [{ titleText := some "Some Result",
                           linkHref := some "https://example.com",
                           snippetText := none }] }
      = [{ title := "Some Result", url := "https://example.com",
           snippet := none }] := by
  refine ⟨by decide, by decide, by decide⟩

/-! ### Cache lemmas -/

theorem lookup_cacheRemove (c : FlaskApp.Cache) (q : String) :
    List.lookup q (FlaskApp.cacheRemove c q) = none := by
  induction c with
  | nil => rfl
  | cons e rest ih =>
    by_cases he : e.1 = q
    · simp [FlaskApp.cacheRemove, List.filter, he] at ih ⊢
      exact ih
    · simp only [FlaskApp.cacheRemove, List.filter] at ih ⊢
      have : (decide (e.1 ≠ q)) = true := by simp [he]
      rw [this]
      simp only [List.lookup]
      have : (q == e.1) = false := by
        simp [beq_iff_eq]
        exact fun h => he h.symm
      rw [this]
      exact ih

theorem get_cached_mem_snd (c : FlaskApp.Cache) (q : String) (now : ℤ) :
    ∀ e ∈ (FlaskApp.get_cached c q now).2, e ∈ c := by
  intro e he
  rw [FlaskApp.get_cached] at he
  cases hl : List.lookup q c with
  | none => rw [hl] at he; exact he
  | some v =>
    rw [hl] at he
    dsimp only at he
    by_cases hage : now - v.2 ≤ FlaskApp.CACHE_TTL_SECONDS
    · rw [if_pos hage] at he; exact he
    · rw [if_neg hage] at he
      exact List.mem_of_mem_filter he

theorem get_cached_none_lookup (c : FlaskApp.Cache) (q : String) (now : ℤ) :
    (FlaskApp.get_cached c q now).1 = none →
    List.lookup q (FlaskApp.get_cached c q now).2 = none := by
  rw [FlaskApp.get_cached]
  cases hl : List.lookup q c with
  | none => intro _; exact hl
  | some v =>
    dsimp only
    by_cases hage : now - v.2 ≤ FlaskApp.CACHE_TTL_SECONDS
    · rw [if_pos hage]
      intro h
      exact absurd h (by simp)
    · rw [if_neg hage]
      intro _
      exact lookup_cacheRemove c q

/-- C5 (counterexample).  The first call for a query whose retrieval
yields nothing returns `[]` and caches nothing; a second call one second
later re-invokes the pipeline and can return a different (nonempty)
list — the two calls are not idempotent within the TTL window. -/
theorem cache_empty_first_call_counterexample :
    (FlaskApp.search [] "news" 0 []).body = [] ∧
    (FlaskApp.search (FlaskApp.search [] "news" 0 []).cache "news" 1
        [{ title := "Fresh Result", url := "https://example.com",
           snippet := none }]).body
      = [{ title := "Fresh Result", url := "https://example.com",
           snippet := none }] ∧
    (FlaskApp.search (FlaskApp.search [] "news" 0 []).cache "news" 1
        [{ title := "Fresh Result", url := "https://example.com",
           snippet := none }]).invoked = true ∧
    (([] : List FlaskApp.FItem) ==
      [{ title := "Fresh Result", url := "https://example.com",
         snippet := none }]) = false := by
  refine ⟨by decide, by decide, by decide, by decide⟩

/-- C5 (amended).  When the first call's retrieval returns a *nonempty*
list, a second call with the same query within the TTL window returns
the identical list and does not invoke the pipeline; a first call that
yielded `[]` caches nothing, so the second call re-invokes retrieval
(see the counterexample). -/
theorem search_idempotent_within_ttl (q : String) (now1 now2 : ℤ)
    (r f2 : List FlaskApp.FItem) (hq : pyStrip q ≠ "") (hr : r ≠ [])
    (httl : now2 - now1 ≤ FlaskApp.CACHE_TTL_SECONDS) :
    (FlaskApp.search (FlaskApp.search [] q now1 r).cache q now2 f2).body
      = (FlaskApp.search [] q now1 r).body ∧
    (FlaskApp.search (FlaskApp.search [] q now1 r).cache q now2 f2).invoked
      = false ∧
    (FlaskApp.search [] q now1 r).body = r := by
  have hfirst : FlaskApp.search [] q now1 r =
      { body := r, status := 200,
        cache := [(pyStrip q, r, now1)], invoked := true } := by
    rw [FlaskApp.search, if_neg hq]
    have hgc : FlaskApp.get_cached [] (pyStrip q) now1 = (none, []) := rfl
    rw [hgc]
    dsimp only
    rw [FlaskApp.set_cache, if_neg hr]
    rfl
  rw [hfirst]
  rw [FlaskApp.search, if_neg hq]
  have hgc2 : FlaskApp.get_cached [(pyStrip q, r, now1)] (pyStrip q) now2 =
      (some r, [(pyStrip q, r, now1)]) := by
    rw [FlaskApp.get_cached]
    have hl : List.lookup (pyStrip q) [(pyStrip q, r, now1)] = some (r, now1) := by
      simp [List.lookup]
    rw [hl]
    dsimp only
    rw [if_pos httl]
  rw [hgc2]
  exact ⟨rfl, rfl, rfl⟩

/-- C5 (witness): the amended theorem at a concrete query, nonempty first
fetch and a five-second gap. -/
theorem search_idempotent_within_ttl_witness :
    (FlaskApp.search
        (FlaskApp.search [] "news" 0
          [{ title := "Result", url := "https://example.com",
             snippet := none }]).cache "news" 5 []).body
      = (FlaskApp.search [] "news" 0
          [{ title := "Result", url := "https://example.com",
             snippet := none }]).body ∧
    (FlaskApp.search
        (FlaskApp.search [] "news" 0
          [{ title := "Result", url := "https://example.com",
             snippet := none }]).cache "news" 5 []).invoked = false ∧
    (FlaskApp.search [] "news" 0
        [{ title := "Result", url := "https://example.com",
           snippet := none }]).body
      = [{ title := "Result", url := "https://example.com",
           snippet := none }] :=
  search_idempotent_within_ttl "news" 0 5
    [{ title := "Result", url := "https://example.com", snippet := none }] []
    (by decide) (by decide) (by decide)

theorem get_cached_of_lookup_none (c : FlaskApp.Cache) (q : String) (now : ℤ)
    (h : List.lookup q c = none) : FlaskApp.get_cached c q now = (none, c) := by
  rw [FlaskApp.get_cached, h]

/-- One `/search` call keeps every cache entry nonempty. -/
theorem search_preserves_nonempty (c : FlaskApp.Cache) (q : String) (now : ℤ)
    (fetch : List FlaskApp.FItem) (hc : ∀ e ∈ c, e.2.1 ≠ []) :
    ∀ e ∈ (FlaskApp.search c q now fetch).cache, e.2.1 ≠ [] := by
  intro e he
  rw [FlaskApp.search] at he
  by_cases hq : pyStrip q = ""
  · rw [if_pos hq] at he
    exact hc e he
  · rw [if_neg hq] at he
    dsimp only at he
    cases hgc : (FlaskApp.get_cached c (pyStrip q) now).1 with
    | some cached =>
      rw [hgc] at he
      dsimp only at he
      exact hc e (get_cached_mem_snd c (pyStrip q) now e he)
    | none =>
      rw [hgc] at he
      dsimp only at he
      rw [FlaskApp.set_cache] at he
      by_cases hf : fetch = []
      · rw [if_pos hf] at he
        exact hc e (get_cached_mem_snd c (pyStrip q) now e he)
      · rw [if_neg hf] at he
        rw [FlaskApp.cacheInsert] at he
        rcases List.mem_cons.mp he with h1 | h2
        · subst h1; exact hf
        · exact hc e (get_cached_mem_snd c (pyStrip q) now e
            (List.mem_of_mem_filter h2))

/-- An invoked `/search` call implies a nonblank query and a cache
miss. -/
theorem search_invoked_miss (c : FlaskApp.Cache) (q : String) (now : ℤ)
    (fetch : List FlaskApp.FItem)
    (h : (FlaskApp.search c q now fetch).invoked = true) :
    pyStrip q ≠ "" ∧ (FlaskApp.get_cached c (pyStrip q) now).1 = none := by
  rw [FlaskApp.search] at h
  by_cases hq : pyStrip q = ""
  · rw [if_pos hq] at h
    exact absurd h (by simp)
  · rw [if_neg hq] at h
    dsimp only at h
    cases hgc : (FlaskApp.get_cached c (pyStrip q) now).1 with
    | some cached =>
      rw [hgc] at h
      exact absurd h (by simp)
    | none => exact ⟨hq, rfl⟩

/-- C6 (confirmed).  First, after any sequence of `/search` calls
starting from an empty cache, every cache entry holds a nonempty result
list (`set_cache` refuses empty lists).  Second, a call that invoked
retrieval and got zero results caches nothing for its query, so the
next call for the same query — at any later time — invokes retrieval
again rather than serving a cached empty response. -/
theorem cache_never_stores_empty :
    (∀ (steps : List (String × ℤ × List FlaskApp.FItem)),
      ∀ e ∈ FlaskApp.runSearches [] steps, e.2.1 ≠ []) ∧
    (∀ (c : FlaskApp.Cache) (q : String) (now1 now2 : ℤ)
        (f2 : List FlaskApp.FItem),
      (FlaskApp.search c q now1 []).invoked = true →
      (FlaskApp.search c q now1 []).body = [] ∧
      (FlaskApp.search (FlaskApp.search c q now1 []).cache q now2 f2).invoked
        = true) := by
  constructor
  · have key : ∀ (steps : List (String × ℤ × List FlaskApp.FItem))
        (c : FlaskApp.Cache), (∀ e ∈ c, e.2.1 ≠ []) →
        ∀ e ∈ FlaskApp.runSearches c steps, e.2.1 ≠ [] := by
      intro steps
      induction steps with
      | nil => intro c hc e he; exact hc e he
      | cons st rest ih =>
        intro c hc e he
        rw [FlaskApp.runSearches] at he
        exact ih _ (search_preserves_nonempty c st.1 st.2.1 st.2.2 hc) e he
    exact fun steps => key steps [] (by intro e he; exact absurd he (by simp))
  · intro c q now1 now2 f2 hinv
    obtain ⟨hq, hgc⟩ := search_invoked_miss c q now1 [] hinv
    have hsearch1 : FlaskApp.search c q now1 [] =
        { body := [], status := 200,
          cache := (FlaskApp.get_cached c (pyStrip q) now1).2,
          invoked := true } := by
      rw [FlaskApp.search, if_neg hq]
      dsimp only
      rw [hgc]
      dsimp only
      rw [FlaskApp.set_cache, if_pos rfl]
    have hlook := get_cached_none_lookup c (pyStrip q) now1 hgc
    rw [hsearch1]
    refine ⟨rfl, ?_⟩
    rw [FlaskApp.search, if_neg hq]
    dsimp only
    rw [get_cached_of_lookup_none _ _ now2 hlook]

/-- C6 (witness): a concrete two-step run keeps the only entry
nonempty, and a concrete zero-result first call re-invokes retrieval on
the repeat call. -/
theorem cache_never_stores_empty_witness :
    (FlaskApp.search [] "news" 0 []).body = [] ∧
    (FlaskApp.search (FlaskApp.search [] "news" 0 []).cache "news" 30
        [{ title := "Late Result", url := "https://example.com",
           snippet := none }]).invoked = true :=
  cache_never_stores_empty.2 [] "news" 0 30
    [{ title := "Late Result", url := "https://example.com", snippet := none }]
    (by decide)

/-- A successful endpoint attempt yields at most `maxResults` items. -/
theorem attemptEndpoint_ok_length (a : SearchEngine.SeAttempt) (m : Nat)
    (rs : List SearchEngine.SItem)
    (h : SearchEngine.attemptEndpoint a m = .ok rs) : rs.length ≤ m := by
  have hext : ∀ (cs : List SearchEngine.SeContainer),
      (SearchEngine.scrapeExtract cs m).length ≤ m := by
    intro cs
    calc (SearchEngine.scrapeExtract cs m).length
        ≤ (cs.take m).length := List.length_filterMap_le _ _
      _ ≤ m := by rw [List.length_take]; omega
  rw [SearchEngine.attemptEndpoint] at h
  cases h1 : a.fetch1 with
  | error e => rw [h1] at h; exact absurd h (by simp)
  | ok r1 =>
    rw [h1] at h
    dsimp only at h
    by_cases hb : SearchEngine.botDetected r1.text
    · rw [if_pos hb] at h
      cases h2 : a.fetch2 with
      | error e => rw [h2] at h; exact absurd h (by simp)
      | ok r2 =>
        rw [h2] at h
        dsimp only at h
        by_cases hb2 : SearchEngine.botDetected r2.text
        · rw [if_pos hb2] at h
          have : rs = [] := (Except.ok.inj h).symm
          subst this
          simp
        · rw [if_neg hb2] at h
          have := (Except.ok.inj h).symm
          subst this
          exact hext _
    · rw [if_neg hb] at h
      dsimp only at h
      by_cases hb2 : SearchEngine.botDetected r1.text
      · exact absurd hb2 hb
      · rw [if_neg hb2] at h
        have := (Except.ok.inj h).symm
        subst this
        exact hext _

/-- C7 (confirmed).  Every extraction loop caps its output at the
`max_results` parameter: the orchestrating `scrape_ddg_html` of
search_engine.py, the `scrape_ddg_html` of simple_ddg_scraper.py, and
`_ddg_requests_search` of ddg_scraper.py all return at most
`maxResults` items. -/
theorem search_returns_at_most_max_results
    (attempts : List SearchEngine.SeAttempt)
    (containers : List SearchEngine.SeContainer)
    (divs : List DdgScraper.DsDiv) (maxResults : Nat) :
    (SearchEngine.scrape_ddg_html attempts maxResults).length ≤ maxResults ∧
    (SimpleDdg.scrape_ddg_html containers maxResults).length ≤ maxResults ∧
    (∀ rs, DdgScraper.ddgRequestsSearch (.ok divs) maxResults = .ok rs →
      rs.length ≤ maxResults) := by
  refine ⟨?_, ?_, ?_⟩
  · induction attempts with
    | nil => simp [SearchEngine.scrape_ddg_html]
    | cons a rest ih =>
      rw [SearchEngine.scrape_ddg_html]
      cases hatt : SearchEngine.attemptEndpoint a maxResults with
      | error e => exact ih
      | ok items =>
        cases items with
        | nil => exact ih
        | cons r rs =>
          exact attemptEndpoint_ok_length a maxResults (r :: rs) hatt
  · calc (SimpleDdg.scrape_ddg_html containers maxResults).length
        ≤ (containers.take maxResults).length := List.length_filterMap_le _ _
      _ ≤ maxResults := by rw [List.length_take]; omega
  · intro rs hrs
    rw [DdgScraper.ddgRequestsSearch] at hrs
    have := Except.ok.inj hrs
    subst this
    calc ((divs.take maxResults).filterMap DdgScraper.requestsOne).length
        ≤ (divs.take maxResults).length := List.length_filterMap_le _ _
      _ ≤ maxResults := by rw [List.length_take]; omega

/-- C7 (witness): the cap theorem applied to concrete five-container
inputs with `maxResults = 3`. -/
theorem search_returns_at_most_max_results_witness :
    (SearchEngine.scrape_ddg_html [] 3).length ≤ 3 ∧
    (SimpleDdg.scrape_ddg_html
        (List.replicate 5
          { links := [{ href := "https://example.com",
                        text := "Example Domain" }], textBlocks := [] }) 3).length
      ≤ 3 :=
  ⟨(search_returns_at_most_max_results [] [] [] 3).1,
   (search_returns_at_most_max_results []
      (List.replicate 5
        { links := [{ href := "https://example.com",
                      text := "Example Domain" }], textBlocks := [] }) [] 3).2.1⟩

/-- C8 (counterexample).  flask_app.py's `/search` is also a search
endpoint of this repository, and it answers a whitespace-only query with
HTTP 200 and an empty JSON list — not a client-error response — while
skipping the pipeline. -/
theorem flask_blank_query_not_client_error :
    (FlaskApp.search [] "   " 0 []).status = 200 ∧
    (FlaskApp.search [] "   " 0 []).invoked = false ∧
    (FlaskApp.search [] "   " 0 []).body = [] ∧
    decide (400 ≤ (FlaskApp.search [] "   " 0 []).status ∧
      (FlaskApp.search [] "   " 0 []).status < 500) = false := by
  refine ⟨by decide, by decide, by decide, by decide⟩

/-- C8 (amended).  For index.py's `/search` endpoint the claim holds: an
empty or whitespace-only query gets HTTP 400 without invoking the
pipeline, and a blank query is the only condition producing a 4xx
status (engine unavailability gives 503, a raised search error 500,
success 200); flask_app.py's `/search` also rejects blank queries
before the pipeline but answers them with HTTP 200 and an empty list
(see the counterexample). -/
theorem index_search_client_error_iff_blank (rawQ : String) (avail : Bool)
    (scrape : Except PyExc (List SearchEngine.SItem)) :
    (pyStrip rawQ = "" →
      (IndexApp.search rawQ avail scrape).status = 400 ∧
      (IndexApp.search rawQ avail scrape).invoked = false) ∧
    ((400 ≤ (IndexApp.search rawQ avail scrape).status ∧
      (IndexApp.search rawQ avail scrape).status < 500) ↔ pyStrip rawQ = "") := by
  by_cases hq : pyStrip rawQ = ""
  · simp only [IndexApp.search.eq_def]
    rw [if_pos hq]
    exact ⟨fun _ => ⟨rfl, rfl⟩, by simp [hq]⟩
  · simp only [IndexApp.search.eq_def]
    rw [if_neg hq]
    refine ⟨fun h => absurd h hq, ?_⟩
    cases avail with
    | false =>
      rw [if_pos (by simp)]
      constructor
      · intro h
        dsimp only at h
        exact absurd h (by omega)
      · intro h
        exact absurd h hq
    | true =>
      rw [if_neg (by simp)]
      cases scrape with
      | ok rs =>
        constructor
        · intro h
          dsimp only at h
          exact absurd h (by omega)
        · intro h
          exact absurd h hq
      | error e =>
        constructor
        · intro h
          dsimp only at h
          exact absurd h (by omega)
        · intro h
          exact absurd h hq

/-- C8 (witness): the amended theorem applied to a whitespace-only
query. -/
theorem index_search_client_error_iff_blank_witness :
    (IndexApp.search "   " true (Except.ok [])).status = 400 ∧
    (IndexApp.search "   " true (Except.ok [])).invoked = false :=
  (index_search_client_error_iff_blank "   " true (Except.ok [])).1 (by decide)

/-! ### Emotion-classifier lemmas -/

/-- The score invariants the confidence bound rests on: the valence and
arousal scores are sums of nonnegative contributions, and the neutral
baseline is clipped into `[0, 1]`. -/
theorem calculate_scores_invariants (f : Emotion.TextFeatures) :
    0 ≤ (Emotion.calculate_psychological_scores f).positive_valence ∧
    0 ≤ (Emotion.calculate_psychological_scores f).negative_valence ∧
    0 ≤ (Emotion.calculate_psychological_scores f).high_arousal ∧
    0 ≤ (Emotion.calculate_psychological_scores f).neutral_regulation ∧
    (Emotion.calculate_psychological_scores f).neutral_regulation ≤ 1 := by
  rw [Emotion.calculate_psychological_scores]
  have hpos : (0:ℚ) ≤ 2 * f.posEmojiCount + 3/2 * f.posExprCount +
      (if f.hasTripleBang then 6/5 else if f.hasDoubleBang then 4/5
       else if f.endsBang then 1/2 else 0) := by
    have hc1 : (0:ℚ) ≤ (f.posEmojiCount : ℚ) := by exact_mod_cast Nat.zero_le _
    have hc2 : (0:ℚ) ≤ (f.posExprCount : ℚ) := by exact_mod_cast Nat.zero_le _
    have h1 : (0:ℚ) ≤ 2 * f.posEmojiCount + 3/2 * f.posExprCount := by linarith
    have h2 : (0:ℚ) ≤ (if f.hasTripleBang then (6:ℚ)/5 else if f.hasDoubleBang
        then 4/5 else if f.endsBang then 1/2 else 0) := by
      split_ifs <;> norm_num
    linarith
  have hneg : (0:ℚ) ≤ 2 * f.negEmojiCount + 3/2 * f.negExprCount +
      (if f.hasEllipsis then 4/5 else 0) + (if f.endsEllipsis then 1/2 else 0) := by
    have hc1 : (0:ℚ) ≤ (f.negEmojiCount : ℚ) := by exact_mod_cast Nat.zero_le _
    have hc2 : (0:ℚ) ≤ (f.negExprCount : ℚ) := by exact_mod_cast Nat.zero_le _
    have h1 : (0:ℚ) ≤ 2 * f.negEmojiCount + 3/2 * f.negExprCount := by linarith
    have h2 : (0:ℚ) ≤ (if f.hasEllipsis then (4:ℚ)/5 else 0) := by
      split_ifs <;> norm_num
    have h3 : (0:ℚ) ≤ (if f.endsEllipsis then (1:ℚ)/2 else 0) := by
      split_ifs <;> norm_num
    linarith
  have hint : (0:ℚ) ≤ (f.repMatchLens.map (fun n : Nat => 1 + (n : ℚ) / 10)).sum +
      3/2 * f.capsWordCount + (if f.hasDoubleBang then 6/5 else 0) +
      (if f.hasMultiQ then 1 else 0) + (if f.hasEllipsis then 4/5 else 0) := by
    have h1 : (0:ℚ) ≤ (f.repMatchLens.map (fun n : Nat => 1 + (n : ℚ) / 10)).sum := by
      apply List.sum_nonneg
      intro x hx
      obtain ⟨n, _, rfl⟩ := List.mem_map.mp hx
      have : (0:ℚ) ≤ (n : ℚ) := by exact_mod_cast Nat.zero_le n
      linarith
    have hc3 : (0:ℚ) ≤ (f.capsWordCount : ℚ) := by exact_mod_cast Nat.zero_le _
    have h2 : (0:ℚ) ≤ 3/2 * f.capsWordCount := by linarith
    have h3 : (0:ℚ) ≤ (if f.hasDoubleBang then (6:ℚ)/5 else 0) := by
      split_ifs <;> norm_num
    have h4 : (0:ℚ) ≤ (if f.hasMultiQ then (1:ℚ) else 0) := by
      split_ifs <;> norm_num
    have h5 : (0:ℚ) ≤ (if f.hasEllipsis then (4:ℚ)/5 else 0) := by
      split_ifs <;> norm_num
    linarith
  refine ⟨hpos, hneg, hint, le_max_left 0 _, ?_⟩
  apply max_le (by norm_num)
  have habs : (0:ℚ) ≤ |4/5 * (f.questionRunCount:ℚ) +
      (if 20 < f.wordCount then 2 else if 10 < f.wordCount then 1
       else if f.wordCount ≤ 3 then -1/2 else 0)| := abs_nonneg _
  linarith

/-- The DistilBERT enhancement only raises the valence/arousal scores
(via `max`) and leaves the neutral baseline untouched. -/
theorem enhance_scores_invariants (s : Emotion.Scores)
    (db : List (String × ℚ)) (hpv : 0 ≤ s.positive_valence)
    (hnv : 0 ≤ s.negative_valence)
    (hnr : s.neutral_regulation ≤ 1) :
    0 ≤ (Emotion.enhanceScores s db).positive_valence ∧
    0 ≤ (Emotion.enhanceScores s db).negative_valence ∧
    (Emotion.enhanceScores s db).neutral_regulation ≤ 1 := by
  have step : ∀ (g : Emotion.Scores → List (String × ℚ) → Emotion.Scores),
      (g = Emotion.enhanceJoy ∨ g = Emotion.enhanceSadness ∨
       g = Emotion.enhanceAnger ∨ g = Emotion.enhanceFear) →
      ∀ t : Emotion.Scores, 0 ≤ t.positive_valence → 0 ≤ t.negative_valence →
        t.neutral_regulation ≤ 1 →
        0 ≤ (g t db).positive_valence ∧ 0 ≤ (g t db).negative_valence ∧
        (g t db).neutral_regulation ≤ 1 := by
    intro g hg t h1 h2 h3
    rcases hg with rfl | rfl | rfl | rfl
    · rw [Emotion.enhanceJoy]
      cases db.lookup "joy" <;>
        exact ⟨by simp [le_max_iff, h1], h2, h3⟩
    · rw [Emotion.enhanceSadness]
      cases db.lookup "sadness" <;>
        exact ⟨h1, by simp [le_max_iff, h2], h3⟩
    · rw [Emotion.enhanceAnger]
      cases db.lookup "anger" <;>
        exact ⟨h1, by simp [le_max_iff, h2], h3⟩
    · rw [Emotion.enhanceFear]
      cases db.lookup "fear" <;>
        exact ⟨h1, by simp [le_max_iff, h2], h3⟩
  rw [Emotion.enhanceScores]
  split_ifs with hdb
  · exact ⟨hpv, hnv, hnr⟩
  · obtain ⟨a1, a2, a3⟩ := step Emotion.enhanceJoy (Or.inl rfl) s hpv hnv hnr
    obtain ⟨b1, b2, b3⟩ := step Emotion.enhanceSadness (Or.inr (Or.inl rfl)) _ a1 a2 a3
    obtain ⟨c1, c2, c3⟩ := step Emotion.enhanceAnger (Or.inr (Or.inr (Or.inl rfl))) _ b1 b2 b3
    exact step Emotion.enhanceFear (Or.inr (Or.inr (Or.inr rfl))) _ c1 c2 c3

theorem clampProfile_bounds (x : ℚ) :
    -1 ≤ Emotion.clampProfile x ∧ Emotion.clampProfile x ≤ 1 :=
  ⟨le_max_left _ _, max_le (by norm_num) (min_le_left _ _)⟩

set_option maxHeartbeats 1000000 in
/-- The confidence returned by `determine_psychological_state` lies in
`[0, 1]` whenever the valence scores are nonnegative and the neutral
baseline is at most 1. -/
theorem determine_confidence_bounds (s : Emotion.Scores)
    (hpv : 0 ≤ s.positive_valence) (hnv : 0 ≤ s.negative_valence)
    (hnr : s.neutral_regulation ≤ 1) :
    0 ≤ (Emotion.determine_psychological_state s).2 ∧
    (Emotion.determine_psychological_state s).2 ≤ 1 := by
  have habs : (0:ℚ) ≤ |s.high_engagement| := abs_nonneg _
  rw [Emotion.determine_psychological_state]
  split_ifs with h1 h2 h3 h4 h5 h6 h7 h8 h9 <;>
    refine ⟨?_, ?_⟩ <;>
    dsimp only <;>
    first
      | linarith
      | exact le_trans (min_le_left _ _) (by norm_num)
      | exact le_min (by norm_num) (by linarith)
      | exact max_le (by norm_num) hnr
      | exact le_trans (by norm_num) (le_max_left _ _)

/-- C9 (confirmed).  Every record `classify_query` returns — through the
success path, the exception fallback, or the (unreachable)
model-unavailable fallback — has a confidence in `[0, 1]`, and every
entry of its psychological profile lies in `[-1, 1]`; on the reachable
paths the profile carries exactly the keys `valence`, `arousal`,
`engagement`, `regulation`. -/
theorem classify_query_bounds (modelLoaded : Bool)
    (loadAttempt : Except PyExc Unit)
    (analysis : Except PyExc (Emotion.TextFeatures × List (String × ℚ)))
    (r : Emotion.Record)
    (h : Emotion.classify_query modelLoaded loadAttempt analysis = .ok r) :
    (0 ≤ r.confidence ∧ r.confidence ≤ 1) ∧
    r.psychological_profile.map Prod.fst =
      ["valence", "arousal", "engagement", "regulation"] ∧
    (∀ p ∈ r.psychological_profile, -1 ≤ p.2 ∧ p.2 ≤ 1) := by
  have hload : Emotion.load_model loadAttempt = true := by
    cases loadAttempt <;> rfl
  rw [Emotion.classify_query.eq_def, if_neg (by
    intro hcond
    exact hcond.2 hload)] at h
  cases analysis with
  | error e =>
    have hr := (Except.ok.inj h).symm
    subst hr
    rw [Emotion.classifyFallback]
    refine ⟨⟨by norm_num, by norm_num⟩, rfl, ?_⟩
    intro p hp
    simp only [List.mem_cons, List.not_mem_nil, or_false] at hp
    rcases hp with h1 | h1 | h1 | h1 <;> subst h1 <;>
      exact ⟨by norm_num, by norm_num⟩
  | ok a =>
    have hr := (Except.ok.inj h).symm
    subst hr
    rw [Emotion.classifySuccess]
    obtain ⟨hpv0, hnv0, _, _, hnr1⟩ :=
      calculate_scores_invariants a.1
    obtain ⟨hpv, hnv, hnr⟩ := enhance_scores_invariants
      (Emotion.calculate_psychological_scores a.1) a.2 hpv0 hnv0 hnr1
    refine ⟨determine_confidence_bounds _ hpv hnv hnr, rfl, ?_⟩
    intro p hp
    simp only [List.map_cons, List.map_nil, List.mem_cons,
      List.not_mem_nil, or_false] at hp
    rcases hp with h1 | h1 | h1 | h1 <;> subst h1 <;>
      exact clampProfile_bounds _

/-- C9 (witness): the bounds applied to the record produced for the
empty feature set with no emotion percentages. -/
theorem classify_query_bounds_witness :
    0 ≤ (Emotion.classifySuccess
        { posEmojiCount := 0, posExprCount := 0, hasTripleBang := false,
          hasDoubleBang := false, endsBang := false, negEmojiCount := 0,
          negExprCount := 0, hasEllipsis := false, endsEllipsis := false,
          repMatchLens := [], capsWordCount := 0, hasMultiQ := false,
          questionRunCount := 0, wordCount := 0 } []).confidence ∧
    (Emotion.classifySuccess
        { posEmojiCount := 0, posExprCount := 0, hasTripleBang := false,
          hasDoubleBang := false, endsBang := false, negEmojiCount := 0,
          negExprCount := 0, hasEllipsis := false, endsEllipsis := false,
          repMatchLens := [], capsWordCount := 0, hasMultiQ := false,
          questionRunCount := 0, wordCount := 0 } []).confidence ≤ 1 :=
  (classify_query_bounds true (.ok ())
    (.ok ({ posEmojiCount := 0, posExprCount := 0, hasTripleBang := false,
            hasDoubleBang := false, endsBang := false, negEmojiCount := 0,
            negExprCount := 0, hasEllipsis := false, endsEllipsis := false,
            repMatchLens := [], capsWordCount := 0, hasMultiQ := false,
            questionRunCount := 0, wordCount := 0 }, []))
    _ rfl).1

/-- C10 (confirmed).  `classify_query` is total at its interface: it
always returns a record (never `.error`); when the analysis raises, the
record is the neutral fallback — `neutral_regulation`, confidence 1,
tool `web_search`, a zero/one profile, and the error field carrying the
exception; and `load_model` returns `True` on every loading outcome, so
the model-unavailable branch is unreachable. -/
theorem classify_query_total_fallback :
    (∀ (ml : Bool) (lo : Except PyExc Unit)
        (analysis : Except PyExc (Emotion.TextFeatures × List (String × ℚ))),
      ∃ r, Emotion.classify_query ml lo analysis = .ok r) ∧
    (∀ (ml : Bool) (lo : Except PyExc Unit) (e : PyExc),
      Emotion.classify_query ml lo (.error e) = .ok
        { primary_state := "neutral_regulation", confidence := 1,
          tool := "web_search",
          psychological_profile :=
            [("valence", 0), ("arousal", 0), ("engagement", 0),
             ("regulation", 1)],
          error := some e }) ∧
    (∀ lo : Except PyExc Unit, Emotion.load_model lo = true) := by
  have hload : ∀ lo : Except PyExc Unit, Emotion.load_model lo = true := by
    intro lo
    cases lo <;> rfl
  refine ⟨?_, ?_, hload⟩
  · intro ml lo analysis
    rw [Emotion.classify_query.eq_def, if_neg (fun hcond => hcond.2 (hload lo))]
    cases analysis with
    | ok a => exact ⟨_, rfl⟩
    | error e => exact ⟨_, rfl⟩
  · intro ml lo e
    rw [Emotion.classify_query.eq_def, if_neg (fun hcond => hcond.2 (hload lo))]
    rfl
